import Mathlib

/-!
Verification of the SyntropyLog documentation site repository.

The development shallowly embeds the repository's presentational React
components (the Examples page with its hardcoded `ExampleCategories` array,
the two `HomepageFeatures` variants with their `FeatureList` arrays) and the
two static-site configuration modules (`docusaurus.config.ts` and
`docusaurus.config.js`), and proves structural properties about them:
link integrity against the content tree, configuration policies,
determinism, purity of rendering, and invariants of the hardcoded data.
-/

namespace SyntropylogDoc

/-- Rendered markup: a node is either a text node or an element with a tag,
a list of attributes (name/value pairs, e.g. `className`, `to`) and children.
This is the shape of the JSX trees returned by the repository's components. -/
inductive Html where
  | text (s : String) : Html
  | element (tag : String) (attrs : List (String × String)) (children : List Html) : Html

/-- The children of a node (a text node has none). -/
def childrenOf : Html → List Html
  | Html.text _ => []
  | Html.element _ _ cs => cs

/-- The `i`-th child of a node, defaulting to an empty text node. -/
def nthChild (h : Html) (i : Nat) : Html :=
  (childrenOf h).getD i (Html.text "")

/-- JavaScript `String.prototype.toLowerCase` restricted to the ASCII
characters appearing in the embedded data: each character is lowercased
independently. -/
def jsToLowerCase (s : String) : String :=
  String.mk (s.data.map Char.toLower)

/-- Replace the first occurrence of `pat` by `rep` in a character list,
returning the list unchanged when `pat` does not occur; an empty pattern
matches at the start.  This is the semantics of the JavaScript call
`s.replace(pat, rep)` with a string (non-regex, non-global) pattern. -/
def replaceFirstChars (pat rep : List Char) : List Char → List Char
  | [] => if pat = [] then rep else []
  | c :: cs =>
    if pat.isPrefixOf (c :: cs) then rep ++ (c :: cs).drop pat.length
    else c :: replaceFirstChars pat rep cs

/-- JavaScript `s.replace(pat, rep)` with a string pattern: first occurrence
only. -/
def jsReplaceFirst (s pat rep : String) : String :=
  String.mk (replaceFirstChars pat.data rep.data s.data)

/-- One entry of the `examples` list inside `ExampleCategories`
(source: the Examples page component, object literals
`{ number, title, description }`). -/
structure ExampleEntry where
  number : String
  title : String
  description : String
deriving DecidableEq, Repr

/-- One entry of the `ExampleCategories` array
(source: object literals `{ title, description, examples }`). -/
structure CategoryEntry where
  title : String
  description : String
  examples : List ExampleEntry
deriving DecidableEq, Repr

/-- The hardcoded `ExampleCategories` array of the Examples page component. -/
def ExampleCategories : List CategoryEntry := [
  { title := "Foundation Examples (00-09)",
    description := "Start here if you\x27re new to SyntropyLog",
    examples := [
      { number := "00", title := "Setup & Initialization", description := "Basic initialization patterns" },
      { number := "01", title := "Hello World", description := "Your first SyntropyLog application" },
      { number := "02", title := "Basic Context", description := "Understanding context management" },
      { number := "03", title := "TypeScript Context", description := "Type-safe context with TypeScript" },
      { number := "04", title := "Logging Levels & Transports", description := "Different log formats and levels" },
      { number := "05", title := "Configuration Patterns", description := "Advanced configuration strategies" },
      { number := "06", title := "Error Handling", description := "Best practices for error logging" },
      { number := "07", title := "Performance Monitoring", description := "Monitoring application performance" },
      { number := "08", title := "Testing Strategies", description := "How to test with SyntropyLog" },
      { number := "09", title := "Best Practices", description := "Production-ready patterns" }
    ] },
  { title := "HTTP & Redis Examples (10-13)",
    description := "Learn HTTP instrumentation and Redis integration",
    examples := [
      { number := "10", title := "Basic HTTP Correlation", description := "HTTP client instrumentation" },
      { number := "11", title := "Custom HTTP Adapters", description := "Creating custom HTTP adapters" },
      { number := "12", title := "HTTP + Redis + Axios", description := "Full-stack with Express" },
      { number := "13", title := "HTTP + Redis + Fastify", description := "Full-stack with Fastify" }
    ] },
  { title := "Message Broker Examples (20-24)",
    description := "Advanced patterns with message brokers",
    examples := [
      { number := "20", title := "Basic Kafka Correlation", description := "Kafka integration" },
      { number := "21", title := "Basic RabbitMQ Broker", description := "RabbitMQ integration" },
      { number := "22", title := "Basic NATS Broker", description := "NATS integration" },
      { number := "23", title := "Kafka Full Stack", description := "Complete Kafka application" },
      { number := "24", title := "NATS Full Stack", description := "Complete NATS microservices" }
    ] }
]

/-- The link target built by `ExampleCard`:
the template literal appends `example.number.toLowerCase().replace(' ', '-')`
to `/docs/examples/`. -/
def exampleLinkTarget (e : ExampleEntry) : String :=
  "/docs/examples/" ++ jsReplaceFirst (jsToLowerCase e.number) " " "-"

/-- The `ExampleCard` component: a card with header, body, and a footer
link to the example's documentation route. -/
def ExampleCard (e : ExampleEntry) : Html :=
  Html.element "div" [("className", "col col--4 margin-bottom--lg")] [
    Html.element "div" [("className", "card")] [
      Html.element "div" [("className", "card__header")] [
        Html.element "h3" [] [Html.text (e.number ++ " - " ++ e.title)]],
      Html.element "div" [("className", "card__body")] [
        Html.element "p" [] [Html.text e.description]],
      Html.element "div" [("className", "card__footer")] [
        Html.element "Link"
          [("className", "button button--primary button--block"),
           ("to", exampleLinkTarget e)]
          [Html.text "View Example"]]]]

/-- The section markup of `ExampleCategory`, parametrised by the already
rendered cards (heading, description paragraph, row of cards). -/
def mkCategorySection (c : CategoryEntry) (cards : List Html) : Html :=
  Html.element "div" [("className", "margin-bottom--xl")] [
    Html.element "h2" [] [Html.text c.title],
    Html.element "p" [("className", "margin-bottom--lg")] [Html.text c.description],
    Html.element "div" [("className", "row")] cards]

/-- The `ExampleCategory` component: one `ExampleCard` per entry of
`category.examples`, in order. -/
def ExampleCategory (c : CategoryEntry) : Html :=
  mkCategorySection c (c.examples.map ExampleCard)

/-- The `ExamplesHeader` component (hero banner of the Examples page). -/
def ExamplesHeader : Html :=
  Html.element "header" [("className", "hero hero--primary")] [
    Html.element "div" [("className", "container")] [
      Html.element "h1" [("className", "hero__title")] [Html.text "Examples"],
      Html.element "p" [("className", "hero__subtitle")]
        [Html.text "Learn SyntropyLog progressively with real-world examples"]]]

/-- The static `Running Examples` box that follows the category sections on
the Examples page. -/
def runningExamplesBox : Html :=
  Html.element "div" [("className", "margin-top--xl padding--lg")] [
    Html.element "h2" [] [Html.text "Running Examples"],
    Html.element "p" [] [Html.text "Each example includes:"],
    Html.element "ul" [] [
      Html.element "li" [] [Html.text "✅ Complete source code - Ready to run"],
      Html.element "li" [] [Html.text "✅ Docker setup - For services like Redis, Kafka, etc."],
      Html.element "li" [] [Html.text "✅ Step-by-step instructions - Clear explanations"],
      Html.element "li" [] [Html.text "✅ Expected output - Know what to expect"]],
    Html.element "h3" [] [Html.text "Quick Start"],
    Html.element "div" [("className", "margin-bottom--md")] [
      Html.element "code" []
        [Html.text "# Navigate to any example cd sub-modules/examples/01-hello-world # Install dependencies npm install # Run the example npm start"]]]

/-- The page markup of `Examples`, parametrised by the rendered category
sections (Layout wrapping the hero header and a main container holding the
sections followed by the static box). -/
def mkExamplesPage (secs : List Html) : Html :=
  Html.element "Layout"
    [("title", "Examples - SyntropyLog"),
     ("description", "Learn SyntropyLog progressively with real-world examples")] [
    ExamplesHeader,
    Html.element "main" [] [
      Html.element "div" [("className", "container margin-top--xl")]
        (secs ++ [runningExamplesBox])]]

/-- The default-exported `Examples` page component: one `ExampleCategory`
section per entry of `ExampleCategories`, in order, then the static box. -/
def Examples : Html :=
  mkExamplesPage (ExampleCategories.map ExampleCategory)

/-- One entry of a `FeatureList` array (`{ title, Svg, description }`); the
`Svg` component is represented by the asset path of its `require` call and
the JSX-fragment description by its text. -/
structure FeatureItem where
  title : String
  svg : String
  description : String
deriving DecidableEq, Repr

namespace ComponentsTsx

/-- The hardcoded `FeatureList` of `src/components/HomepageFeatures/index.tsx`
(three entries). -/
def FeatureList : List FeatureItem := [
  { title := "Zero Boilerplate",
    svg := "@site/static/img/undraw_docusaurus_mountain.svg",
    description := "Get started in 30 seconds with automatic context propagation and structured logging. Focus on your business logic, not observability setup." },
  { title := "Automatic Correlation",
    svg := "@site/static/img/undraw_docusaurus_tree.svg",
    description := "Distributed tracing with automatic correlation IDs across services, HTTP calls, and message brokers. Zero configuration required." },
  { title := "Framework Agnostic",
    svg := "@site/static/img/undraw_docusaurus_react.svg",
    description := "Works seamlessly with Express, Fastify, Koa, NestJS, and any Node.js application. No vendor lock-in, no framework dependencies." }
]

/-- The `Feature` component of the TypeScript `HomepageFeatures` module. -/
def Feature (f : FeatureItem) : Html :=
  Html.element "div" [("className", "col col--4")] [
    Html.element "div" [("className", "text--center")] [
      Html.element "Svg" [("className", "featureSvg"), ("role", "img"), ("src", f.svg)] []],
    Html.element "div" [("className", "text--center padding-horiz--md")] [
      Html.element "h3" [] [Html.text f.title],
      Html.element "p" [] [Html.text f.description]]]

/-- The default-exported `HomepageFeatures` component: a section holding a
container holding a row with one `Feature` per `FeatureList` entry. -/
def HomepageFeatures : Html :=
  Html.element "section" [("className", "features")] [
    Html.element "div" [("className", "container")] [
      Html.element "div" [("className", "row")] (FeatureList.map Feature)]]

end ComponentsTsx

namespace ComponentsJs

/-- The hardcoded `FeatureList` of the JavaScript `HomepageFeatures` module
(six entries). -/
def FeatureList : List FeatureItem := [
  { title := "🚀 Production Ready",
    svg := "@site/static/img/undraw_docusaurus_mountain.svg",
    description := "94.1% test coverage, comprehensive examples, and battle-tested in production environments. Built for high-performance teams who need reliability." },
  { title := "🔄 Framework Agnostic",
    svg := "@site/static/img/undraw_docusaurus_tree.svg",
    description := "Works seamlessly across Express, Fastify, Koa, NestJS, and any Node.js application type. No vendor lock-in, no framework dependencies." },
  { title := "🔗 Automatic Correlation",
    svg := "@site/static/img/undraw_docusaurus_react.svg",
    description := "Distributed tracing with correlation IDs across services, HTTP calls, and message brokers. Zero configuration required." },
  { title := "🎯 Zero Boilerplate",
    svg := "@site/static/img/undraw_docusaurus_mountain.svg",
    description := "Get started in 30 seconds with automatic context propagation and structured logging. Focus on your business logic, not observability setup." },
  { title := "🛡️ Security First",
    svg := "@site/static/img/undraw_docusaurus_tree.svg",
    description := "Built-in data masking, secure configurations, and compliance-ready logging. Protect sensitive data automatically." },
  { title := "⚡ High Performance",
    svg := "@site/static/img/undraw_docusaurus_react.svg",
    description := "Optimized for production with minimal overhead and intelligent log scoping. 45,000+ ops/sec with less than 1ms latency." }
]

/-- The `Feature` component of the JavaScript `HomepageFeatures` module. -/
def Feature (f : FeatureItem) : Html :=
  Html.element "div" [("className", "col col--4")] [
    Html.element "div" [("className", "text--center")] [
      Html.element "Svg" [("className", "featureSvg"), ("role", "img"), ("src", f.svg)] []],
    Html.element "div" [("className", "text--center padding-horiz--md")] [
      Html.element "h3" [] [Html.text f.title],
      Html.element "p" [] [Html.text f.description]]]

/-- The default-exported JavaScript `HomepageFeatures` component. -/
def HomepageFeatures : Html :=
  Html.element "section" [("className", "margin-top--xl")] [
    Html.element "div" [("className", "container")] [
      Html.element "div" [("className", "row")] (FeatureList.map Feature)]]

end ComponentsJs

/-- A link destination: an internal `to` path or an external `href` URL. -/
inductive LinkTarget where
  | internal (path : String) : LinkTarget
  | external (url : String) : LinkTarget
deriving DecidableEq, Repr

/-- One navbar item of the site configuration: a `docSidebar` item, a
labelled link, or a raw `html` item. -/
inductive NavbarItem where
  | docSidebar (sidebarId position label : String) : NavbarItem
  | link (label position : String) (dest : LinkTarget) : NavbarItem
  | htmlItem (position value : String) : NavbarItem
deriving DecidableEq, Repr

/-- One item of a footer column (`{ label, to }` or `{ label, href }`). -/
structure FooterItem where
  label : String
  dest : LinkTarget
deriving DecidableEq, Repr

/-- One column of `themeConfig.footer.links` (`{ title, items }`). -/
structure FooterColumn where
  title : String
  items : List FooterItem
deriving DecidableEq, Repr

/-- The build-time configuration surface shared by the two config modules:
the scalar fields, the locale settings, the classic preset's blog toggle,
and the navbar/footer link definitions. -/
structure SiteConfig where
  title : String
  tagline : String
  favicon : String
  url : String
  baseUrl : String
  organizationName : String
  projectName : String
  onBrokenLinks : String
  onBrokenMarkdownLinks : String
  defaultLocale : String
  locales : List String
  blogEnabled : Bool
  navbarItems : List NavbarItem
  footerLinks : List FooterColumn
deriving DecidableEq, Repr

/-- The constant `LATEST_VERSION` of `docusaurus.config.ts`. -/
def LATEST_VERSION : String := "0.7.0"

/-- The `customFields` object of `docusaurus.config.ts`
(`version: LATEST_VERSION, releaseDate: '2025-07-25'`). -/
structure CustomFields where
  version : String
  releaseDate : String
deriving DecidableEq, Repr

/-- `config.customFields` of `docusaurus.config.ts`. -/
def tsCustomFields : CustomFields :=
  { version := LATEST_VERSION, releaseDate := "2025-07-25" }

/-- The navbar `html` badge of `docusaurus.config.ts`: the template literal
interpolating `LATEST_VERSION` into the version-badge span. -/
def tsVersionBadge : String :=
  "<span class=\"version-badge\">v" ++ LATEST_VERSION ++ "</span>"

/-- `themeConfig.navbar.items` of `docusaurus.config.ts`. -/
def tsNavbarItems : List NavbarItem := [
  NavbarItem.docSidebar "tutorialSidebar" "left" "Documentation",
  NavbarItem.link "Examples" "left" (LinkTarget.internal "/examples"),
  NavbarItem.link "GitHub" "right" (LinkTarget.external "https://github.com/Syntropysoft/SyntropyLog"),
  NavbarItem.link "NPM" "right" (LinkTarget.external "https://www.npmjs.com/package/syntropylog"),
  NavbarItem.htmlItem "right" tsVersionBadge
]

/-- `themeConfig.footer.links` of `docusaurus.config.ts`. -/
def tsFooterLinks : List FooterColumn := [
  { title := "Documentation",
    items := [
      { label := "Getting Started", dest := LinkTarget.internal "/docs/getting-started" },
      { label := "API Reference", dest := LinkTarget.internal "/docs/api-reference/" },
      { label := "Examples", dest := LinkTarget.internal "/examples" }
    ] },
  { title := "Community",
    items := [
      { label := "GitHub", dest := LinkTarget.external "https://github.com/Syntropysoft/SyntropyLog" },
      { label := "NPM Package", dest := LinkTarget.external "https://www.npmjs.com/package/syntropylog" },
      { label := "Issues", dest := LinkTarget.external "https://github.com/Syntropysoft/SyntropyLog/issues" }
    ] },
  { title := "Resources",
    items := [
      { label := "Examples Repository", dest := LinkTarget.external "https://github.com/Syntropysoft/syntropylog-examples-" },
      { label := "Adapters Package", dest := LinkTarget.external "https://www.npmjs.com/package/@syntropylog/adapters" }
    ] }
]

/-- The `docusaurus.config.ts` configuration object (blog disabled in the
classic preset: `blog: false`). -/
def tsConfig : SiteConfig :=
  { title := "SyntropyLog",
    tagline := "From Chaos to Clarity - The Observability Framework for High-Performance Teams",
    favicon := "/favicon.ico",
    url := "https://syntropysoft.com",
    baseUrl := "/syntropylog-doc/",
    organizationName := "Syntropysoft",
    projectName := "syntropylog-doc",
    onBrokenLinks := "throw",
    onBrokenMarkdownLinks := "warn",
    defaultLocale := "en",
    locales := ["en"],
    blogEnabled := false,
    navbarItems := tsNavbarItems,
    footerLinks := tsFooterLinks }

/-- `themeConfig.navbar.items` of `docusaurus.config.js`. -/
def jsNavbarItems : List NavbarItem := [
  NavbarItem.docSidebar "tutorialSidebar" "left" "Documentation",
  NavbarItem.link "Examples" "left" (LinkTarget.internal "/examples"),
  NavbarItem.link "API" "left" (LinkTarget.internal "/api"),
  NavbarItem.link "Quality" "left" (LinkTarget.internal "/quality"),
  NavbarItem.link "GitHub" "right" (LinkTarget.external "https://github.com/Syntropysoft/SyntropyLog")
]

/-- `themeConfig.footer.links` of `docusaurus.config.js`. -/
def jsFooterLinks : List FooterColumn := [
  { title := "Docs",
    items := [
      { label := "Getting Started", dest := LinkTarget.internal "/docs/getting-started" },
      { label := "Examples", dest := LinkTarget.internal "/examples" },
      { label := "API Reference", dest := LinkTarget.internal "/api" }
    ] },
  { title := "Community",
    items := [
      { label := "GitHub", dest := LinkTarget.external "https://github.com/Syntropysoft/SyntropyLog" },
      { label := "Issues", dest := LinkTarget.external "https://github.com/Syntropysoft/SyntropyLog/issues" },
      { label := "Discussions", dest := LinkTarget.external "https://github.com/Syntropysoft/SyntropyLog/discussions" }
    ] },
  { title := "More",
    items := [
      { label := "Quality & CI/CD", dest := LinkTarget.internal "/quality" },
      { label := "NPM Package", dest := LinkTarget.external "https://www.npmjs.com/package/syntropylog" },
      { label := "Adapters Package", dest := LinkTarget.external "https://www.npmjs.com/package/@syntropylog/adapters" }
    ] }
]

/-- The `docusaurus.config.js` configuration object (the classic preset
configures the blog with `showReadingTime`, so the blog is enabled). -/
def jsConfig : SiteConfig :=
  { title := "SyntropyLog",
    tagline := "The Observability Framework for High-Performance Teams",
    favicon := "./assets/favicon.ico",
    url := "https://syntropylog.com",
    baseUrl := "/syntropylog-doc/",
    organizationName := "Syntropysoft",
    projectName := "SyntropyLog",
    onBrokenLinks := "throw",
    onBrokenMarkdownLinks := "warn",
    defaultLocale := "en",
    locales := ["en"],
    blogEnabled := true,
    navbarItems := jsNavbarItems,
    footerLinks := jsFooterLinks }

/-- The footer copyright string of `docusaurus.config.ts` as a function of
the evaluation-time year read from `new Date().getFullYear()`. -/
def tsCopyright (year : Nat) : String :=
  "Copyright © " ++ toString year ++ " Syntropysoft. Built with Docusaurus."

/-- The footer copyright string of `docusaurus.config.js` as a function of
the evaluation-time year read from `new Date().getFullYear()`. -/
def jsCopyright (year : Nat) : String :=
  "Copyright © " ++ toString year ++ " SyntropySoft. Built with Docusaurus."

/-- Evaluating the TypeScript config module at a given current year: the
static configuration surface together with the copyright string built at
evaluation time. -/
def tsConfigEval (year : Nat) : SiteConfig × String :=
  (tsConfig, tsCopyright year)

/-- Evaluating the JavaScript config module at a given current year. -/
def jsConfigEval (year : Nat) : SiteConfig × String :=
  (jsConfig, jsCopyright year)

/-- The internal `to` paths among a list of navbar items. -/
def navbarInternalPaths (items : List NavbarItem) : List String :=
  items.filterMap fun it =>
    match it with
    | NavbarItem.link _ _ (LinkTarget.internal p) => some p
    | _ => none

/-- The internal `to` paths among the footer columns. -/
def footerInternalPaths (cols : List FooterColumn) : List String :=
  (cols.map fun col =>
    col.items.filterMap fun it =>
      match it.dest with
      | LinkTarget.internal p => some p
      | _ => none).flatten

/-- All internal `to` paths referenced by a configuration's navbar and
footer, in order of appearance. -/
def configInternalPaths (c : SiteConfig) : List String :=
  navbarInternalPaths c.navbarItems ++ footerInternalPaths c.footerLinks

/-- Modelled from the spec: the external generator maps each content source
file to a route from its path and front-matter `id` ("a tree of
Markdown/MDX files with front-matter fields ... that the generator maps to
routes").  The generator itself is not part of this repository; this list
enumerates one route per content file present in the source tree:
`src/pages/examples.tsx` and the Markdown docs under `docs/` (`intro`,
`getting-started`, `examples.md`, the `examples/` directory with its index
and the docs with front-matter ids `testing-patterns-vitest`,
`testing-redis-context`, `testing-transports-concepts`,
`testing-serializers`, `testing-patterns-jest`, the `configuration/` and
`production/` indexes, `core-concepts/context`, `core-concepts/logger`,
`production/graceful-shutdown`).  The remaining Markdown files of the
repository are a logger guide, a configuration-patterns guide and a
graceful-shutdown guide whose routes derive from those titles; no content
file maps to a two-digit route under `/docs/examples/`, nor to `/api`,
`/quality`, or `/docs/api-reference/`. -/
def siteRoutes : List String := [
  "/examples",
  "/docs/intro",
  "/docs/getting-started",
  "/docs/examples",
  "/docs/examples/",
  "/docs/examples/testing-patterns-vitest",
  "/docs/examples/testing-redis-context",
  "/docs/examples/testing-transports-concepts",
  "/docs/examples/testing-serializers",
  "/docs/examples/testing-patterns-jest",
  "/docs/configuration/",
  "/docs/core-concepts/context",
  "/docs/core-concepts/logger",
  "/docs/production/",
  "/docs/production/graceful-shutdown"
]

/-- All example entries of `ExampleCategories`, flattened in page order. -/
def allExampleEntries : List ExampleEntry :=
  (ExampleCategories.map fun c => c.examples).flatten

/-- The numeric reading of an example's two-digit `number` string
(digits interpreted in base 10). -/
def numericValue (s : String) : Nat :=
  s.data.foldl (fun n c => 10 * n + (c.toNat - 48)) 0

/-- The module-level mutable surface the presentational components can see:
the hardcoded data arrays of the three component modules.  Rendering is
embedded below as explicit state passing over this record, so that reads
and (absent) writes of the arrays are visible in the embedding. -/
structure ModuleState where
  featureListTsx : List FeatureItem
  featureListJs : List FeatureItem
  exampleCategories : List CategoryEntry

/-- The module state at load time: each array holds its literal initial
value. -/
def initialModuleState : ModuleState :=
  { featureListTsx := ComponentsTsx.FeatureList,
    featureListJs := ComponentsJs.FeatureList,
    exampleCategories := ExampleCategories }

/-- State-passing `Array.prototype.map` over a render callback, threading
the module state left to right exactly as JavaScript evaluates the calls. -/
def mapSt {α : Type} (f : ModuleState → α → Html × ModuleState) :
    ModuleState → List α → List Html × ModuleState
  | s, [] => ([], s)
  | s, a :: as =>
    let r := f s a
    let rs := mapSt f r.2 as
    (r.1 :: rs.1, rs.2)

/-- `ExampleCard` with the module state threaded through: it only reads its
props. -/
def exampleCardSt (s : ModuleState) (e : ExampleEntry) : Html × ModuleState :=
  (ExampleCard e, s)

/-- `ExampleCategory` with the module state threaded through
`category.examples.map(...)`. -/
def exampleCategorySt (s : ModuleState) (c : CategoryEntry) : Html × ModuleState :=
  let cards := mapSt exampleCardSt s c.examples
  (mkCategorySection c cards.1, cards.2)

/-- The `Examples` page with the module state threaded through: it reads
the `ExampleCategories` array from the module state and maps
`ExampleCategory` over it. -/
def examplesPageSt (s : ModuleState) : Html × ModuleState :=
  let secs := mapSt exampleCategorySt s s.exampleCategories
  (mkExamplesPage secs.1, secs.2)

/-- The TypeScript `HomepageFeatures` with the module state threaded
through: it reads its `FeatureList` from the module state. -/
def homepageFeaturesTsxSt (s : ModuleState) : Html × ModuleState :=
  let cards := mapSt (fun s' f => (ComponentsTsx.Feature f, s')) s s.featureListTsx
  (Html.element "section" [("className", "features")] [
    Html.element "div" [("className", "container")] [
      Html.element "div" [("className", "row")] cards.1]], cards.2)

/-- The JavaScript `HomepageFeatures` with the module state threaded
through. -/
def homepageFeaturesJsSt (s : ModuleState) : Html × ModuleState :=
  let cards := mapSt (fun s' f => (ComponentsJs.Feature f, s')) s s.featureListJs
  (Html.element "section" [("className", "margin-top--xl")] [
    Html.element "div" [("className", "container")] [
      Html.element "div" [("className", "row")] cards.1]], cards.2)

/-- A state-passing map over a callback that leaves the state unchanged
returns the state unchanged. -/
theorem mapSt_snd {α : Type} (f : ModuleState → α → Html × ModuleState)
    (hf : ∀ s a, (f s a).2 = s) :
    ∀ (s : ModuleState) (l : List α), (mapSt f s l).2 = s := by
  intro s l
  induction l generalizing s with
  | nil => rfl
  | cons a as ih =>
    show (mapSt f (f s a).2 as).2 = s
    rw [ih ((f s a).2), hf s a]

/-- `exampleCategorySt` leaves the module state unchanged. -/
theorem exampleCategorySt_snd (s : ModuleState) (c : CategoryEntry) :
    (exampleCategorySt s c).2 = s :=
  mapSt_snd exampleCardSt (fun _ _ => rfl) s c.examples

/-- The feature cards rendered inside the row of the TypeScript
`HomepageFeatures` (section, then container, then row). -/
def tsxFeatureCards : List Html :=
  childrenOf (nthChild (nthChild ComponentsTsx.HomepageFeatures 0) 0)

/-- The feature cards rendered inside the row of the JavaScript
`HomepageFeatures`. -/
def jsFeatureCards : List Html :=
  childrenOf (nthChild (nthChild ComponentsJs.HomepageFeatures 0) 0)

/-- The children of the main container of the rendered `Examples` page:
the category sections followed by the static `Running Examples` box. -/
def examplesContainerChildren : List Html :=
  childrenOf (nthChild (nthChild Examples 1) 0)

/-- The category sections of the rendered `Examples` page. -/
def categorySections : List Html :=
  examplesContainerChildren.take ExampleCategories.length

/-- The cards rendered inside the row of the `i`-th category section
(heading, description paragraph, then row). -/
def sectionCards (i : Nat) : List Html :=
  childrenOf (nthChild (categorySections.getD i (Html.text "")) 2)

/-- C1: the `ExampleCard` link target for example `00` (and likewise for
every one of the 19 entries of `ExampleCategories`, which cover the numbers
00-09, 10-13 and 20-24) is a `/docs/examples/` route that no content file
of the repository maps to: filtering the 19 link targets for membership in
the site's route set leaves nothing. -/
theorem example_doc_routes_missing :
    exampleLinkTarget { number := "00", title := "Setup & Initialization",
                        description := "Basic initialization patterns" } = "/docs/examples/00"
    ∧ allExampleEntries.length = 19
    ∧ (allExampleEntries.map exampleLinkTarget).filter
        (fun p => siteRoutes.contains p) = [] := by
  decide

/-- C2: among the internal `to` paths of the two configurations,
`/docs/api-reference/` (TypeScript footer) and `/api`, `/quality`
(JavaScript navbar and footer) do not resolve to any page of the content
tree, while `/examples` and `/docs/getting-started` do. -/
theorem config_internal_links_broken :
    (configInternalPaths tsConfig).filter (fun p => !(siteRoutes.contains p))
      = ["/docs/api-reference/"]
    ∧ (configInternalPaths jsConfig).filter (fun p => !(siteRoutes.contains p))
      = ["/api", "/quality", "/api", "/quality"]
    ∧ "/examples" ∈ siteRoutes
    ∧ "/docs/getting-started" ∈ siteRoutes := by
  decide

/-- C3: both configuration modules set `onBrokenLinks` to `'throw'` and
`onBrokenMarkdownLinks` to `'warn'`. -/
theorem broken_link_policies :
    tsConfig.onBrokenLinks = "throw"
    ∧ tsConfig.onBrokenMarkdownLinks = "warn"
    ∧ jsConfig.onBrokenLinks = "throw"
    ∧ jsConfig.onBrokenMarkdownLinks = "warn" := by
  decide

/-- C4 counterexample: evaluating either config module in 2025 and in 2026
yields different values, because the footer copyright string embeds the
evaluation-time year; so config construction is not independent of the
current date. -/
theorem copyright_depends_on_year :
    tsConfigEval 2025 ≠ tsConfigEval 2026
    ∧ jsConfigEval 2025 ≠ jsConfigEval 2026
    ∧ tsCopyright 2025 = "Copyright © 2025 Syntropysoft. Built with Docusaurus." := by
  decide

/-- C4 (amended): config construction is deterministic given the
evaluation date: every field except the footer copyright string is
independent of the year, and two evaluations in the same year produce
equal values. -/
theorem config_deterministic_given_year :
    ∀ y₁ y₂ : Nat,
      (tsConfigEval y₁).1 = (tsConfigEval y₂).1
      ∧ (jsConfigEval y₁).1 = (jsConfigEval y₂).1
      ∧ (y₁ = y₂ → tsConfigEval y₁ = tsConfigEval y₂ ∧ jsConfigEval y₁ = jsConfigEval y₂) := by
  intro y₁ y₂
  exact ⟨rfl, rfl, fun h => by rw [h]; exact ⟨rfl, rfl⟩⟩

/-- Witness for C4: the amended determinism theorem applied at the
concrete years 2025 and 2026, discharging the same-year hypothesis at
2025. -/
theorem config_deterministic_given_year_witness :
    (tsConfigEval 2025).1 = (tsConfigEval 2026).1
    ∧ tsConfigEval 2025 = tsConfigEval 2025 :=
  ⟨(config_deterministic_given_year 2025 2026).1,
   ((config_deterministic_given_year 2025 2025).2.2 rfl).1⟩

/-- C5 counterexample: the TypeScript and JavaScript configurations define
different production urls (`https://syntropysoft.com` versus
`https://syntropylog.com`), so the claimed equality of the build-time
config surface fails. -/
theorem configs_disagree_url :
    tsConfig.url = "https://syntropysoft.com"
    ∧ jsConfig.url = "https://syntropylog.com"
    ∧ ¬(tsConfig.url = jsConfig.url ∧ tsConfig.projectName = jsConfig.projectName
        ∧ tsConfig.blogEnabled = jsConfig.blogEnabled) := by
  decide

/-- C5 (amended): the two configurations agree on site title, baseUrl,
organization name, locale settings and the broken-link policies, but
differ in the production url, the project name, and the classic preset's
blog toggle. -/
theorem configs_shared_surface :
    tsConfig.title = jsConfig.title
    ∧ tsConfig.baseUrl = jsConfig.baseUrl
    ∧ tsConfig.organizationName = jsConfig.organizationName
    ∧ tsConfig.defaultLocale = jsConfig.defaultLocale
    ∧ tsConfig.locales = jsConfig.locales
    ∧ tsConfig.onBrokenLinks = jsConfig.onBrokenLinks
    ∧ tsConfig.onBrokenMarkdownLinks = jsConfig.onBrokenMarkdownLinks
    ∧ tsConfig.url ≠ jsConfig.url
    ∧ tsConfig.projectName ≠ jsConfig.projectName
    ∧ tsConfig.blogEnabled ≠ jsConfig.blogEnabled := by
  decide

/-- C6: each `HomepageFeatures` variant renders exactly one `Feature` card
per `FeatureList` entry in array order, and the `Examples` page renders
exactly one `ExampleCategory` section per `ExampleCategories` entry in
array order (followed only by the static box), each section holding one
`ExampleCard` per example in order. -/
theorem components_render_one_card_per_entry :
    tsxFeatureCards.length = ComponentsTsx.FeatureList.length
    ∧ (∀ i : Fin ComponentsTsx.FeatureList.length,
        tsxFeatureCards.getD i.val (Html.text "")
          = ComponentsTsx.Feature (ComponentsTsx.FeatureList.get i))
    ∧ jsFeatureCards.length = ComponentsJs.FeatureList.length
    ∧ (∀ i : Fin ComponentsJs.FeatureList.length,
        jsFeatureCards.getD i.val (Html.text "")
          = ComponentsJs.Feature (ComponentsJs.FeatureList.get i))
    ∧ examplesContainerChildren.length = ExampleCategories.length + 1
    ∧ (∀ i : Fin ExampleCategories.length,
        categorySections.getD i.val (Html.text "")
          = ExampleCategory (ExampleCategories.get i))
    ∧ (∀ i : Fin ExampleCategories.length,
        (sectionCards i.val).length = (ExampleCategories.get i).examples.length
        ∧ ∀ j : Fin (ExampleCategories.get i).examples.length,
            (sectionCards i.val).getD j.val (Html.text "")
              = ExampleCard ((ExampleCategories.get i).examples.get j)) := by
  refine ⟨rfl, fun i => ?_, rfl, fun i => ?_, rfl, fun i => ?_, fun i => ?_⟩
  · fin_cases i <;> rfl
  · fin_cases i <;> rfl
  · fin_cases i <;> rfl
  · fin_cases i <;> exact ⟨rfl, fun j => by fin_cases j <;> rfl⟩

/-- C7: rendering the presentational components is a pure read of the
module state: threading the state through every render call returns it
unchanged, so `FeatureList` and `ExampleCategories` hold their initial
values after rendering, and the state-passing renders produce the same
markup as the pure components. -/
theorem rendering_preserves_module_state :
    ∀ s : ModuleState,
      (examplesPageSt s).2 = s
      ∧ (homepageFeaturesTsxSt s).2 = s
      ∧ (homepageFeaturesJsSt s).2 = s
      ∧ (examplesPageSt initialModuleState).2.exampleCategories = ExampleCategories
      ∧ (homepageFeaturesTsxSt initialModuleState).2.featureListTsx = ComponentsTsx.FeatureList
      ∧ (examplesPageSt initialModuleState).1 = Examples
      ∧ (homepageFeaturesTsxSt initialModuleState).1 = ComponentsTsx.HomepageFeatures
      ∧ (homepageFeaturesJsSt initialModuleState).1 = ComponentsJs.HomepageFeatures := by
  intro s
  exact ⟨mapSt_snd exampleCategorySt exampleCategorySt_snd s s.exampleCategories,
         mapSt_snd _ (fun _ _ => rfl) s s.featureListTsx,
         mapSt_snd _ (fun _ _ => rfl) s s.featureListJs,
         rfl, rfl, rfl, rfl, rfl⟩

/-- C8: on every stored example number the `ExampleCard` transformation
`number.toLowerCase().replace(' ', '-')` is the identity — each number is a
two-character digit string (hence contains no uppercase letter and no
space) — so the rendered link target is `/docs/examples/` followed by the
number as stored. -/
theorem link_transform_identity_on_numbers :
    ∀ i : Fin allExampleEntries.length,
      jsReplaceFirst (jsToLowerCase (allExampleEntries.get i).number) " " "-"
        = (allExampleEntries.get i).number
      ∧ exampleLinkTarget (allExampleEntries.get i)
        = "/docs/examples/" ++ (allExampleEntries.get i).number
      ∧ (allExampleEntries.get i).number.length = 2
      ∧ (allExampleEntries.get i).number.data.all (fun c => c.isDigit) = true := by
  decide

/-- C9: the version shown in the navbar html badge of the TypeScript config
is the string `v` followed by `customFields.version`; both come from the
single constant `LATEST_VERSION`, and the badge item is indeed among the
navbar items. -/
theorem navbar_badge_matches_version :
    tsVersionBadge = "<span class=\"version-badge\">v" ++ tsCustomFields.version ++ "</span>"
    ∧ tsCustomFields.version = LATEST_VERSION
    ∧ NavbarItem.htmlItem "right" tsVersionBadge ∈ tsNavbarItems := by
  decide

/-- C10: every category of `ExampleCategories` has a non-empty examples
list whose numbers are in strictly increasing numeric order, and the
numbers are pairwise distinct across all categories. -/
theorem example_categories_structural_invariant :
    (∀ i : Fin ExampleCategories.length,
      (ExampleCategories.get i).examples ≠ []
      ∧ List.Pairwise (fun a b => numericValue a.number < numericValue b.number)
          (ExampleCategories.get i).examples)
    ∧ ((ExampleCategories.map fun c => c.examples.map fun e => e.number).flatten).Nodup := by
  decide

end SyntropylogDoc
